import Mathlib

/-!
Verification of the Expo Metro bundle-options resolver (`metroOptions`) and the
Metro terminal build-progress reporter (`MetroTerminalReporter`).

The bundle-options resolver (`getMetroDirectBundleOptions`, `createBundleUrlPath`)
is modelled from the specification together with the repository's own test vectors
(`metroOptions.test.ts`), because `metroOptions.ts` itself is not part of the
source tree.  The reporter is embedded from
`packages/@expo/cli/src/start/server/metro/MetroTerminalReporter.ts`; `chalk`
styling functions are modelled as the identity on their text argument, since all
properties here are about the rendered text content.
-/

/-- Helper: `(a ++ b) ++ c = a ++ (b ++ c)` for strings, used to regroup the
sequentially appended query-string segments. -/
theorem str_append_assoc (a b c : String) : a ++ b ++ c = a ++ (b ++ c) := by
  cases a with
  | mk la =>
    cases b with
    | mk lb =>
      cases c with
      | mk lc =>
        show String.mk ((la ++ lb) ++ lc) = String.mk (la ++ (lb ++ lc))
        rw [List.append_assoc]

/-- Helper: a string append is empty only when both halves are. -/
theorem str_append_ne_empty_left (a b : String) (h : a ≠ "") : a ++ b ≠ "" := by
  cases a with
  | mk la =>
    cases b with
    | mk lb =>
      intro hab
      apply h
      have : la ++ lb = [] := congrArg String.data hab
      have hla : la = [] := (List.append_eq_nil.mp this).1
      simp [hla]

/-- Drops every leading `/` character of a string (the URL-path builder
normalises the main module name to a single leading slash). -/
def stripLeadingSlashes (s : String) : String :=
  String.mk (s.data.dropWhile (fun c => c = '/'))

/-- `pat` is a prefix of `s`, on character lists. -/
def isPrefixOfCL : List Char → List Char → Bool
  | [], _ => true
  | _ :: _, [] => false
  | a :: as, b :: bs => a = b && isPrefixOfCL as bs

/-- `pat` occurs somewhere in `s`, on character lists. -/
def containsSubCL : List Char → List Char → Bool
  | pat, [] => pat.isEmpty
  | pat, c :: rest => isPrefixOfCL pat (c :: rest) || containsSubCL pat rest

/-- JavaScript's `s.includes(pat)` on strings. -/
def strIncludes (s pat : String) : Bool :=
  containsSubCL pat.data s.data

/-- Splits a character list at a separator character. -/
def splitOnCharAux (sep : Char) : List Char → List Char → List (List Char)
  | [], acc => [acc.reverse]
  | c :: rest, acc =>
    if c = sep then acc.reverse :: splitOnCharAux sep rest []
    else splitOnCharAux sep rest (c :: acc)

/-- Splits a string at a separator character. -/
def splitOnChar (sep : Char) (s : String) : List String :=
  (splitOnCharAux sep s.data []).map String.mk

/-- Modelled from the spec: a base URL is placed in the query string "only when
`baseUrl` is an absolute URL (scheme present)"; a scheme separator `://`
occurring in the string is the presence test. -/
def isAbsoluteUrl (s : String) : Bool :=
  strIncludes s "://"

/-- Uppercase hexadecimal digit for `n < 16`. -/
def hexDigit (n : Nat) : Char :=
  if n < 10 then Char.ofNat (48 + n) else Char.ofNat (55 + n)

/-- UTF-8 byte sequence of a character, as natural numbers. -/
def utf8Bytes (c : Char) : List Nat :=
  let n := c.toNat
  if n < 128 then [n]
  else if n < 2048 then [192 + n / 64, 128 + n % 64]
  else if n < 65536 then [224 + n / 4096, 128 + (n / 64) % 64, 128 + n % 64]
  else [240 + n / 262144, 128 + (n / 4096) % 64, 128 + (n / 64) % 64, 128 + n % 64]

/-- Characters left unescaped by JavaScript's `encodeURIComponent`. -/
def isUnreservedChar (c : Char) : Bool :=
  c.isAlpha || c.isDigit || "-_.!~*()".data.contains c || c.toNat = 39

/-- JavaScript's `encodeURIComponent`: unreserved characters kept, every other
character percent-encoded byte-wise from its UTF-8 encoding. -/
def encodeURIComponentStr (s : String) : String :=
  String.join (s.data.map (fun c =>
    if isUnreservedChar c then String.singleton c
    else String.join ((utf8Bytes c).map
      (fun b => String.mk ['%', hexDigit (b / 16), hexDigit (b % 16)]))))

/-- Modelled from the spec: the "configured server origin (default
`http://localhost:8081`)" prefixed to `sourceUrl` / `sourceMapUrl`. -/
def serverOrigin : String := "http://localhost:8081"

/-- Modelled from the spec: the `BundleRequest` input of the bundle-options
resolver (`metroOptions.ts` is not in the source tree; only its test file is).
Fields are optional because the repository's tests call the resolver with
partial requests.  `engine` is the "Hermes-equivalent engine flag": it is
enabled when its value is `"hermes"`. -/
structure ExpoMetroOptions where
  mainModuleName : Option String := none
  mode : Option String := none
  platform : Option String := none
  baseUrl : Option String := none
  isExporting : Option Bool := none
  lazy : Option Bool := none
  bytecode : Option Bool := none
  engine : Option String := none
  reactCompiler : Option Bool := none
  serializerIncludeMaps : Option Bool := none
  customResolverOptions : List (String × String) := []
deriving DecidableEq

/-- Modelled from the spec: the serializer options of the resolver output;
`includeSourceMaps` is present (`some true`) exactly when maps are requested,
absent (`none`) otherwise. -/
structure SerializerOptions where
  includeSourceMaps : Option Bool := none
deriving DecidableEq

/-- Modelled from the spec: the `DirectBundleOptions` output contract of the
resolver.  Optional fields model presence/absence of the corresponding key. -/
structure DirectBundleOptions where
  customResolverOptions : List (String × String)
  customTransformOptions : List (String × String)
  serializerOptions : SerializerOptions
  dev : Bool
  entryFile : Option String
  inlineSourceMap : Bool
  minify : Bool
  platform : Option String
  unstable_transformProfile : String
  sourceUrl : Option String := none
  sourceMapUrl : Option String := none
deriving DecidableEq

/-- Modelled from the spec: `createBundleUrlPath` and the second (`.map`) call
made by `getDirectBundleOptions`, parameterised by the file extension suffix
(`".bundle"` or `".map"`).  Builds
`/<mainModuleName><ext>?platform=<p>&dev=<bool>&hot=false` followed by the
feature-flag parameters in the spec's fixed order: `resolver.exporting`
(appended when exporting — the in-repo test `disables lazy when exporting`
shows it is appended even when `lazy` is explicitly true), `transform.baseUrl`
(only for an absolute base URL, percent-encoded), `serializer.map` (when maps
are requested).  Leading slashes of the module name are stripped so that the
path carries a single leading slash, as the in-repo test vectors require. -/
def createBundleUrlPathWithExt (o : ExpoMetroOptions) (ext : String) : String :=
  "/" ++ stripLeadingSlashes (o.mainModuleName.getD "") ++ ext
    ++ "?platform=" ++ o.platform.getD ""
    ++ "&dev=" ++ (if o.mode = some "development" then "true" else "false")
    ++ "&hot=false"
    ++ (if o.isExporting = some true then "&resolver.exporting=true" else "")
    ++ (match o.baseUrl with
        | some b => if isAbsoluteUrl b then "&transform.baseUrl=" ++ encodeURIComponentStr b else ""
        | none => "")
    ++ (if o.serializerIncludeMaps = some true then "&serializer.map=true" else "")

/-- Modelled from the spec: the canonical bundle URL path of a request
(`.bundle` suffix). -/
def createBundleUrlPath (o : ExpoMetroOptions) : String :=
  createBundleUrlPathWithExt o ".bundle"

/-- Modelled from the spec: `getDirectBundleOptions` (`getMetroDirectBundleOptions`),
whose source file is not in the source tree.  `envLiveBindings` is the ambient
`EXPO_UNSTABLE_LIVE_BINDINGS` environment toggle, passed explicitly.  The
function fails with the `InvalidOptionsError` message when `bytecode` is
requested on the web platform or without the Hermes engine; otherwise it
assembles the output object: `dev` derived from `mode == "development"`,
`minify` false in the default case, `customTransformOptions` merging the
`baseUrl` (if given) and the `liveBindings` flag (set to `"false"` exactly when
the toggle is the literal string `"0"`), and — when `serializerIncludeMaps` is
true — `sourceUrl`/`sourceMapUrl` built by the URL-path builder with
`serializer.map=true` forced, `.bundle`/`.map` suffixes, prefixed with the
server origin. -/
def getMetroDirectBundleOptions (envLiveBindings : Option String)
    (o : ExpoMetroOptions) : Except String DirectBundleOptions :=
  if o.bytecode = some true ∧ o.platform = some "web" then
    Except.error "Cannot use bytecode with the web platform"
  else if o.bytecode = some true ∧ o.engine ≠ some "hermes" then
    Except.error "Bytecode is only supported with the Hermes engine"
  else
    Except.ok {
      customResolverOptions := o.customResolverOptions
      customTransformOptions :=
        (match o.baseUrl with | some b => [("baseUrl", b)] | none => [])
          ++ (if envLiveBindings = some "0" then [("liveBindings", "false")] else [])
      serializerOptions := ⟨if o.serializerIncludeMaps = some true then some true else none⟩
      dev := decide (o.mode = some "development")
      entryFile := o.mainModuleName
      inlineSourceMap := false
      minify := false
      platform := o.platform
      unstable_transformProfile :=
        if o.engine = some "hermes" then "hermes-stable" else "default"
      sourceUrl :=
        if o.serializerIncludeMaps = some true then
          some (serverOrigin ++
            createBundleUrlPathWithExt { o with serializerIncludeMaps := some true } ".bundle")
        else none
      sourceMapUrl :=
        if o.serializerIncludeMaps = some true then
          some (serverOrigin ++
            createBundleUrlPathWithExt { o with serializerIncludeMaps := some true } ".map")
        else none
    }

/-- The request of the repository's `returns basic options` test for
`getMetroDirectBundleOptions`. -/
def basicOptionsRequest : ExpoMetroOptions :=
  { mainModuleName := some "/index.js", mode := some "development",
    platform := some "ios", baseUrl := some "/foo/", isExporting := some false }

/-- C5: `getDirectBundleOptions` applied to the basic request returns exactly
the object of the spec's testable property 3: `dev` derived from
`mode == "development"`, `minify` defaulting to false, and the non-absolute
base URL placed in `customTransformOptions`. -/
theorem getMetroDirectBundleOptions_basic_options :
    getMetroDirectBundleOptions none basicOptionsRequest =
      Except.ok {
        customResolverOptions := []
        customTransformOptions := [("baseUrl", "/foo/")]
        serializerOptions := ⟨none⟩
        dev := true
        entryFile := some "/index.js"
        inlineSourceMap := false
        minify := false
        platform := some "ios"
        unstable_transformProfile := "default"
        sourceUrl := none
        sourceMapUrl := none } := by
  rfl

/-- Helper: appending the empty string on the right is the identity. -/
theorem str_append_empty (a : String) : a ++ "" = a := by
  cases a with
  | mk la =>
    show String.mk (la ++ []) = String.mk la
    rw [List.append_nil]

/-- Spec-side decomposition: the fixed leading part of a bundle URL path,
`/<mainModuleName><ext>?platform=<p>&dev=<bool>&hot=false`, with the query
parameters `platform`, `dev`, `hot` in that fixed order. -/
def bundleUrlPathBase (o : ExpoMetroOptions) (ext : String) : String :=
  "/" ++ stripLeadingSlashes (o.mainModuleName.getD "") ++ ext
    ++ "?platform=" ++ o.platform.getD ""
    ++ "&dev=" ++ (if o.mode = some "development" then "true" else "false")
    ++ "&hot=false"

/-- Spec-side decomposition: the `resolver.exporting` feature-flag segment. -/
def urlExportingFlag (o : ExpoMetroOptions) : String :=
  if o.isExporting = some true then "&resolver.exporting=true" else ""

/-- Spec-side decomposition: the `transform.baseUrl` feature-flag segment,
present only for an absolute (scheme-carrying) base URL, percent-encoded. -/
def urlBaseUrlFlag (o : ExpoMetroOptions) : String :=
  match o.baseUrl with
  | some b => if isAbsoluteUrl b then "&transform.baseUrl=" ++ encodeURIComponentStr b else ""
  | none => ""

/-- Spec-side decomposition: the `serializer.map` feature-flag segment. -/
def urlSerializerMapFlag (o : ExpoMetroOptions) : String :=
  if o.serializerIncludeMaps = some true then "&serializer.map=true" else ""

/-- The request of the repository's `returns basic options` test for
`createBundleUrlPath`. -/
def basicUrlRequest : ExpoMetroOptions :=
  { mainModuleName := some "index", mode := some "development",
    platform := some "ios", isExporting := some false }

/-- The request of the repository's `disables lazy when exporting` test:
`lazy` is explicitly true AND `isExporting` is true. -/
def lazyExportRequest : ExpoMetroOptions :=
  { mainModuleName := some "index", mode := some "development",
    platform := some "ios", lazy := some true, isExporting := some true }

/-- Sanity check against the repository's test `returns basic options with
baseUrl as a fully qualified URL` (validates the percent-encoder). -/
theorem createBundleUrlPath_absolute_baseUrl_test_vector :
    createBundleUrlPath { basicUrlRequest with baseUrl := some "https://localhost:8081/dist/" } =
      "/index.bundle?platform=ios&dev=true&hot=false&transform.baseUrl=https%3A%2F%2Flocalhost%3A8081%2Fdist%2F" := by
  rfl

/-- C4: every bundle URL path is the fixed-form base
`/<mainModuleName>.bundle?platform=<p>&dev=<d>&hot=false` followed by the
feature-flag segments in the fixed order (exporting, baseUrl, serializer map);
and the spec's concrete example evaluates to
`/index.bundle?platform=ios&dev=true&hot=false`. -/
theorem createBundleUrlPath_canonical_form :
    (∀ o : ExpoMetroOptions,
      createBundleUrlPath o =
        bundleUrlPathBase o ".bundle"
          ++ urlExportingFlag o ++ urlBaseUrlFlag o ++ urlSerializerMapFlag o)
    ∧ createBundleUrlPath basicUrlRequest = "/index.bundle?platform=ios&dev=true&hot=false" := by
  constructor
  · intro o
    rfl
  · rfl

/-- C3 counterexample: at the repository's own `disables lazy when exporting`
test input (`lazy : true`, `isExporting : true`) the produced path DOES contain
`&resolver.exporting=true`, refuting the claim that the flag is appended only
when `lazy` is not explicitly true. -/
theorem createBundleUrlPath_exporting_lazy_counterexample :
    ¬ (strIncludes (createBundleUrlPath lazyExportRequest) "&resolver.exporting=true" = true ↔
        (lazyExportRequest.isExporting = some true ∧ lazyExportRequest.lazy ≠ some true)) := by
  decide

/-- C3 (amended): `createBundleUrlPath` appends `&resolver.exporting=true`
exactly when `isExporting == true`, regardless of `lazy` (exporting overrides
lazy semantics, as the repository's test shows). -/
theorem createBundleUrlPath_exporting_appended_iff (o : ExpoMetroOptions) :
    (o.isExporting = some true →
      createBundleUrlPath o =
        bundleUrlPathBase o ".bundle" ++ "&resolver.exporting=true"
          ++ urlBaseUrlFlag o ++ urlSerializerMapFlag o)
    ∧ (o.isExporting ≠ some true →
      createBundleUrlPath o =
        bundleUrlPathBase o ".bundle" ++ urlBaseUrlFlag o ++ urlSerializerMapFlag o) := by
  constructor
  · intro h
    simp only [createBundleUrlPath, createBundleUrlPathWithExt, bundleUrlPathBase,
      urlBaseUrlFlag, urlSerializerMapFlag, h, if_pos]
  · intro h
    simp only [createBundleUrlPath, createBundleUrlPathWithExt, bundleUrlPathBase,
      urlBaseUrlFlag, urlSerializerMapFlag, if_neg h, str_append_empty]

/-- C3 (amended) witness: at the `lazy : true, isExporting : true` test input the
flag is appended, and the result is the exact string of the repository's test. -/
theorem createBundleUrlPath_exporting_appended_iff_witness :
    createBundleUrlPath lazyExportRequest =
      bundleUrlPathBase lazyExportRequest ".bundle" ++ "&resolver.exporting=true"
        ++ urlBaseUrlFlag lazyExportRequest ++ urlSerializerMapFlag lazyExportRequest
    ∧ createBundleUrlPath lazyExportRequest =
        "/index.bundle?platform=ios&dev=true&hot=false&resolver.exporting=true" :=
  ⟨(createBundleUrlPath_exporting_appended_iff lazyExportRequest).1 rfl, rfl⟩

/-- A request with `bytecode : true` on the web platform. -/
def bytecodeWebRequest : ExpoMetroOptions :=
  { bytecode := some true, platform := some "web" }

/-- A request with `bytecode : true` and no Hermes engine flag. -/
def bytecodeNoHermesRequest : ExpoMetroOptions :=
  { bytecode := some true }

/-- C1: `getMetroDirectBundleOptions` raises `InvalidOptionsError` exactly when
`bytecode == true` and either the platform is `"web"` or the Hermes engine flag
is not enabled; the web case produces the message "Cannot use bytecode with the
web platform" and the non-Hermes case "Bytecode is only supported with the
Hermes engine"; every other request succeeds. -/
theorem getMetroDirectBundleOptions_invalid_options_iff
    (envv : Option String) (o : ExpoMetroOptions) :
    ((∃ msg, getMetroDirectBundleOptions envv o = Except.error msg) ↔
      (o.bytecode = some true ∧ (o.platform = some "web" ∨ o.engine ≠ some "hermes")))
    ∧ (o.bytecode = some true → o.platform = some "web" →
        getMetroDirectBundleOptions envv o =
          Except.error "Cannot use bytecode with the web platform")
    ∧ (o.bytecode = some true → o.platform ≠ some "web" → o.engine ≠ some "hermes" →
        getMetroDirectBundleOptions envv o =
          Except.error "Bytecode is only supported with the Hermes engine") := by
  unfold getMetroDirectBundleOptions
  split_ifs with h1 h2
  · exact ⟨⟨fun _ => ⟨h1.1, Or.inl h1.2⟩, fun _ => ⟨_, rfl⟩⟩,
      fun _ _ => rfl, fun _ hnp _ => absurd h1.2 hnp⟩
  · exact ⟨⟨fun _ => ⟨h2.1, Or.inr h2.2⟩, fun _ => ⟨_, rfl⟩⟩,
      fun hb hw => absurd ⟨hb, hw⟩ h1, fun _ _ _ => rfl⟩
  all_goals
    exact ⟨⟨fun hex => hex.choose_spec.elim,
        fun hc => hc.2.elim (fun hw => absurd ⟨hc.1, hw⟩ h1)
          (fun he => absurd ⟨hc.1, he⟩ h2)⟩,
      fun hb hw => absurd ⟨hb, hw⟩ h1,
      fun hb _ he => absurd ⟨hb, he⟩ h2⟩

/-- C1 witness: both failure branches at the repository's test inputs. -/
theorem getMetroDirectBundleOptions_invalid_options_iff_witness :
    getMetroDirectBundleOptions none bytecodeWebRequest =
      Except.error "Cannot use bytecode with the web platform"
    ∧ getMetroDirectBundleOptions none bytecodeNoHermesRequest =
        Except.error "Bytecode is only supported with the Hermes engine" :=
  ⟨(getMetroDirectBundleOptions_invalid_options_iff none bytecodeWebRequest).2.1 rfl rfl,
   (getMetroDirectBundleOptions_invalid_options_iff none bytecodeNoHermesRequest).2.2
     rfl (by decide) (by decide)⟩

/-- C2: a successful result carries `sourceUrl`/`sourceMapUrl` exactly when
`serializerIncludeMaps` is true, and in that case each is the URL-path
builder's output with `serializer.map=true` forced — `.bundle` suffix for
`sourceUrl`, `.map` suffix for `sourceMapUrl` — prefixed with the default
server origin. -/
theorem getMetroDirectBundleOptions_source_urls_iff
    (envv : Option String) (o : ExpoMetroOptions) (res : DirectBundleOptions)
    (h : getMetroDirectBundleOptions envv o = Except.ok res) :
    ((res.sourceUrl.isSome = true ∧ res.sourceMapUrl.isSome = true) ↔
      o.serializerIncludeMaps = some true)
    ∧ (o.serializerIncludeMaps = some true →
        res.sourceUrl = some (serverOrigin ++
          createBundleUrlPath { o with serializerIncludeMaps := some true })
        ∧ res.sourceMapUrl = some (serverOrigin ++
            createBundleUrlPathWithExt { o with serializerIncludeMaps := some true } ".map")) := by
  by_cases hbw : o.bytecode = some true ∧ o.platform = some "web"
  · simp only [getMetroDirectBundleOptions, if_pos hbw] at h
    exact Except.noConfusion h
  · by_cases hbh : o.bytecode = some true ∧ o.engine ≠ some "hermes"
    · simp only [getMetroDirectBundleOptions, if_neg hbw, if_pos hbh] at h
      exact Except.noConfusion h
    · simp only [getMetroDirectBundleOptions, if_neg hbw, if_neg hbh] at h
      injection h with h'
      subst h'
      by_cases hs : o.serializerIncludeMaps = some true
      · simp [hs, createBundleUrlPath]
      · simp [hs]

/-- The request of the repository's `injects source url if serializer options
are provided` test. -/
def serializerRequest : ExpoMetroOptions :=
  { mainModuleName := some "/index.js", mode := some "development",
    platform := some "ios", serializerIncludeMaps := some true,
    isExporting := some false, bytecode := some false, reactCompiler := some false }

/-- The exact output object of that test. -/
def serializerExpected : DirectBundleOptions :=
  { customResolverOptions := []
    customTransformOptions := []
    serializerOptions := ⟨some true⟩
    dev := true
    entryFile := some "/index.js"
    inlineSourceMap := false
    minify := false
    platform := some "ios"
    unstable_transformProfile := "default"
    sourceUrl := some
      "http://localhost:8081/index.js.bundle?platform=ios&dev=true&hot=false&serializer.map=true"
    sourceMapUrl := some
      "http://localhost:8081/index.js.map?platform=ios&dev=true&hot=false&serializer.map=true" }

/-- C2 witness: at the repository's serializer test input the resolver produces
exactly the test's object, whose URLs are the forced-map builder outputs. -/
theorem getMetroDirectBundleOptions_source_urls_iff_witness :
    getMetroDirectBundleOptions none serializerRequest = Except.ok serializerExpected
    ∧ serializerExpected.sourceUrl = some (serverOrigin ++
        createBundleUrlPath { serializerRequest with serializerIncludeMaps := some true })
    ∧ serializerExpected.sourceMapUrl = some (serverOrigin ++
        createBundleUrlPathWithExt { serializerRequest with serializerIncludeMaps := some true } ".map") :=
  ⟨rfl,
   (getMetroDirectBundleOptions_source_urls_iff none serializerRequest serializerExpected rfl).2 rfl⟩

/-- C6: in every successful result the `liveBindings` key of
`customTransformOptions` is `"false"` when the `EXPO_UNSTABLE_LIVE_BINDINGS`
toggle is the literal string `"0"`, and absent for every other toggle state
(unset, `"true"`, or anything else). -/
theorem getMetroDirectBundleOptions_liveBindings
    (envv : Option String) (o : ExpoMetroOptions) (res : DirectBundleOptions)
    (h : getMetroDirectBundleOptions envv o = Except.ok res) :
    res.customTransformOptions.lookup "liveBindings" =
      (if envv = some "0" then some "false" else none) := by
  by_cases hbw : o.bytecode = some true ∧ o.platform = some "web"
  · simp only [getMetroDirectBundleOptions, if_pos hbw] at h
    exact Except.noConfusion h
  · by_cases hbh : o.bytecode = some true ∧ o.engine ≠ some "hermes"
    · simp only [getMetroDirectBundleOptions, if_neg hbw, if_pos hbh] at h
      exact Except.noConfusion h
    · simp only [getMetroDirectBundleOptions, if_neg hbw, if_neg hbh] at h
      injection h with h'
      subst h'
      by_cases he : envv = some "0" <;>
        cases hb : o.baseUrl <;>
          simp [he, hb, List.lookup]

/-- The successful result of `getMetroDirectBundleOptions` on the empty request
with the live-bindings toggle set to `"0"`. -/
def liveBindingsOnResult : DirectBundleOptions :=
  { customResolverOptions := []
    customTransformOptions := [("liveBindings", "false")]
    serializerOptions := ⟨none⟩
    dev := false
    entryFile := none
    inlineSourceMap := false
    minify := false
    platform := none
    unstable_transformProfile := "default" }

/-- The successful result of `getMetroDirectBundleOptions` on the empty request
when the toggle is unset or has any value other than `"0"`. -/
def liveBindingsOffResult : DirectBundleOptions :=
  { customResolverOptions := []
    customTransformOptions := []
    serializerOptions := ⟨none⟩
    dev := false
    entryFile := none
    inlineSourceMap := false
    minify := false
    platform := none
    unstable_transformProfile := "default" }

/-- C6 witness: toggle `"0"` yields `liveBindings = "false"`; toggle unset and
toggle `"true"` leave the key absent (the repository's three live-bindings
tests). -/
theorem getMetroDirectBundleOptions_liveBindings_witness :
    liveBindingsOnResult.customTransformOptions.lookup "liveBindings" =
      (if (some "0" : Option String) = some "0" then some "false" else none)
    ∧ liveBindingsOffResult.customTransformOptions.lookup "liveBindings" =
        (if (none : Option String) = some "0" then some "false" else none)
    ∧ liveBindingsOffResult.customTransformOptions.lookup "liveBindings" =
        (if (some "true" : Option String) = some "0" then some "false" else none) :=
  ⟨getMetroDirectBundleOptions_liveBindings (some "0") {} liveBindingsOnResult rfl,
   getMetroDirectBundleOptions_liveBindings none {} liveBindingsOffResult rfl,
   getMetroDirectBundleOptions_liveBindings (some "true") {} liveBindingsOffResult rfl⟩

/-- Joins strings with a separator (kernel-reducible `intercalate`). -/
def joinSep (sep : String) : List String → String
  | [] => ""
  | [x] => x
  | x :: y :: xs => x ++ sep ++ joinSep sep (y :: xs)

/-- POSIX `path.basename`: drops trailing slashes, then takes the last
path component. -/
def posixBasename (p : String) : String :=
  String.mk (((p.data.reverse.dropWhile (fun c => c = '/')).takeWhile
    (fun c => c ≠ '/')).reverse)

/-- POSIX `path.dirname` (Node semantics): everything before the separator of
the last component; `.` when there is no directory part, `/` for root
children. -/
def posixDirname (p : String) : String :=
  match p.data with
  | [] => "."
  | cs =>
    let hasRoot := cs.head? = some '/'
    let rev := (cs.reverse.dropWhile (fun c => c = '/')).dropWhile (fun c => c ≠ '/')
    let rev' := match rev with
      | '/' :: rest => rest
      | l => l
    if rev'.isEmpty then (if hasRoot then "/" else ".") else String.mk rev'.reverse

/-- POSIX `path.isAbsolute`. -/
def isAbsolutePathPosix (p : String) : Bool :=
  p.data.head? == some '/'

/-- Splits a path into its non-empty `/`-separated segments. -/
def splitPathSegments (s : String) : List String :=
  (splitOnChar '/' s).filter (fun x => x ≠ "")

/-- Drops the common leading segments of two segment lists. -/
def dropCommonPrefixSegs : List String → List String → List String × List String
  | a :: as, b :: bs => if a = b then dropCommonPrefixSegs as bs else (a :: as, b :: bs)
  | as, bs => (as, bs)

/-- POSIX `path.relative` for already-absolute paths: walks up out of the
non-shared part of `fromPath` and down into the non-shared part of `toPath`. -/
def posixRelative (fromPath toPath : String) : String :=
  let p := dropCommonPrefixSegs (splitPathSegments fromPath) (splitPathSegments toPath)
  joinSep "/" (p.1.map (fun _ => "..") ++ p.2)

/-- The reporter's `replace(/^(\.?\.[\\/])+/, '')`: strips every leading `./`
or `../` segment (POSIX separators). -/
def stripRelDotPrefixCL : List Char → List Char
  | '.' :: '.' :: '/' :: rest => stripRelDotPrefixCL rest
  | '.' :: '/' :: rest => stripRelDotPrefixCL rest
  | l => l

/-- String version of `stripRelDotPrefixCL`. -/
def stripRelDotPrefix (s : String) : String :=
  String.mk (stripRelDotPrefixCL s.data)

/-- Drops leading and trailing spaces (the only whitespace produced by the
platform tags). -/
def strTrimSpaces (s : String) : String :=
  String.mk (((s.data.dropWhile (fun c => c = ' ')).reverse.dropWhile
    (fun c => c = ' ')).reverse)

/-- `BundleDetails` of a Metro build (the fields the reporter reads). -/
structure BundleDetails where
  entryFile : String
  platform : Option String := none
  buildID : Option String := none
  customTransformOptions : List (String × String) := []
  bundleType : String := "bundle"
deriving DecidableEq

/-- `BundleProgress` of a Metro build.  `ratio` is the bundler's progress
ratio; JavaScript's float is embedded as a rational number. -/
structure BundleProgress where
  bundleDetails : BundleDetails
  transformedFileCount : Nat
  totalFileCount : Nat
  ratio : ℚ
deriving DecidableEq

/-- The reporter's build phase (`BuildPhase`). -/
inductive BuildPhase where
  | in_progress
  | done
  | failed
deriving DecidableEq

/-- `getPlatformTagForBuildDetails`: capitalised platform name followed by a
space, empty for a missing (or falsy) platform. -/
def getPlatformTagForBuildDetails (bundleDetails : Option BundleDetails) : String :=
  match bundleDetails with
  | some d =>
    match d.platform with
    | some p =>
      if p = "" then ""
      else (if p = "ios" then "iOS" else if p = "android" then "Android"
            else if p = "web" then "Web" else p) ++ " "
    | none => ""
  | none => ""

/-- `getEnvironmentForBuildDetails`: `λ ` for a node environment, `RSC(<Platform>) `
for a react-server environment, `DOM ` when a DOM-component entry (a non-empty
`dom` transform option) is present, empty otherwise. -/
def getEnvironmentForBuildDetails (bundleDetails : Option BundleDetails) : String :=
  match bundleDetails with
  | none => ""
  | some d =>
    let e := d.customTransformOptions.lookup "environment"
    if e = some "node" then "λ "
    else if e = some "react-server" then
      "RSC(" ++ strTrimSpaces (getPlatformTagForBuildDetails (some d)) ++ ") "
    else
      match d.customTransformOptions.lookup "dom" with
      | some dom => if dom = "" then "" else "DOM "
      | none => ""

/-- The reporter's `const platform = env || getPlatformTagForBuildDetails(...)`:
the environment tag when non-empty, the platform tag otherwise. -/
def statusTag (bd : BundleDetails) : String :=
  let e := getEnvironmentForBuildDetails (some bd)
  if e = "" then getPlatformTagForBuildDetails (some bd) else e

/-- The reporter's `localPath` computation: a DOM-component entry path with a
separator has its leading `./`/`../` segments stripped; otherwise the entry
file, made relative to the project root when absolute. -/
def localBundlePath (projectRoot : String) (bd : BundleDetails) : String :=
  match bd.customTransformOptions.lookup "dom" with
  | some dom =>
    if strIncludes dom "/" then stripRelDotPrefix dom
    else if isAbsolutePathPosix bd.entryFile then posixRelative projectRoot bd.entryFile
    else bd.entryFile
  | none =>
    if isAbsolutePathPosix bd.entryFile then posixRelative projectRoot bd.entryFile
    else bd.entryFile

/-- JavaScript's `String.prototype.padStart` with spaces. -/
def padStart (w : Nat) (s : String) : String :=
  String.mk (List.replicate (w - s.length) ' ') ++ s

/-- `Math.floor(q * 16)` computed on the exact rational: integer floor
division of `16 * num` by `den` (the divisor is positive, so `/` on `ℤ` is
floor division). -/
def floorRatioTimes16 (q : ℚ) : Nat :=
  ((q.num * 16) / (q.den : ℤ)).toNat

/-- `(100 * q).toFixed(1)` on the exact rational for `0 ≤ q`: the value is
rounded half-up to tenths (`n = round(1000 * q)`) and printed as
`<n / 10>.<n mod 10>`. -/
def toFixed1OfHundredTimes (q : ℚ) : String :=
  let n := ((2000 * q.num + (q.den : ℤ)) / (2 * (q.den : ℤ))).toNat
  toString (n / 10) ++ "." ++ toString (n % 10)

/-- The dark block glyph of the progress bar. -/
def darkBlockChar : Char := '▓'

/-- The light block glyph of the progress bar. -/
def lightBlockChar : Char := '░'

/-- `MetroTerminalReporter._getBundleStatusMessage`, with the timer registry
(`_bundleTimers`, owned by the base reporter) and the current
`process.hrtime.bigint()` timestamp (nanoseconds) passed explicitly; chalk
styling is the identity on text.  For a finished (`done`/`failed`) build the
elapsed time is rendered in tenths of a millisecond (`0.<d>ms`) when the
elapsed milliseconds are at most `0.5` (`2 * elapsedNs ≤ 1000000`), and as
whole milliseconds otherwise, both rounded half-up as JavaScript's
`toFixed(0)` does; a buildID without a registered start time renders no time
segment.  For an in-progress build a 16-character block bar is rendered with
`floor(ratio * 16)` dark glyphs, then the percentage to one decimal padded to
width 4, then the `(transformed/total)` counts. -/
def getBundleStatusMessage (projectRoot : String) (bundleTimers : List (String × Nat))
    (nowNs : Nat) (progress : BundleProgress) (phase : BuildPhase) : String :=
  let platformTag := statusTag progress.bundleDetails
  let localPath := localBundlePath projectRoot progress.bundleDetails
  if phase = BuildPhase.in_progress then
    let filledBar := floorRatioTimes16 progress.ratio
    platformTag
      ++ (posixDirname localPath ++ "/")
      ++ posixBasename localPath
      ++ " "
      ++ String.mk (List.replicate filledBar darkBlockChar)
      ++ String.mk (List.replicate (16 - filledBar) lightBlockChar)
      ++ " " ++ padStart 4 (toFixed1OfHundredTimes progress.ratio) ++ "% "
      ++ "(" ++ padStart (toString progress.totalFileCount).length
                  (toString progress.transformedFileCount)
      ++ "/" ++ toString progress.totalFileCount ++ ")"
  else
    let status := if phase = BuildPhase.done then "Bundled " else "Bundling failed "
    let time :=
      match progress.bundleDetails.buildID.bind (fun b => bundleTimers.lookup b) with
      | some startTime =>
        let elapsed := nowNs - startTime
        if 2 * elapsed ≤ 1000000 then
          "0." ++ toString ((2 * elapsed + 100000) / 200000) ++ "ms"
        else
          toString ((2 * elapsed + 1000000) / 2000000) ++ "ms"
      | none => ""
    let plural := if progress.totalFileCount = 1 then "" else "s"
    platformTag ++ status ++ time
      ++ " " ++ localPath ++ " (" ++ toString progress.totalFileCount
      ++ " module" ++ plural ++ ")"

/-- A terminal event as seen by `shouldFilterBundleEvent`: the outer `Option`
models whether the event object carries a `bundleDetails` field at all
(`'bundleDetails' in event`), the inner one whether that field is non-null. -/
structure TerminalReportableEvent where
  bundleDetailsField : Option (Option BundleDetails) := none
deriving DecidableEq

/-- `MetroTerminalReporter.shouldFilterBundleEvent`. -/
def shouldFilterBundleEvent (event : TerminalReportableEvent) : Bool :=
  match event.bundleDetailsField with
  | some (some bd) => bd.bundleType == "map"
  | _ => false

/-- JavaScript truthiness of an optional string: false for an absent value and
for the empty string. -/
def jsTruthy (o : Option String) : Bool :=
  !(o.getD "" == "")

/-- Modelled from the spec: `NODE_STDLIB_MODULES` lives in `externals.ts`,
which is not in the source tree; the spec describes "a fixed allow-list of
standard module names" of the Node runtime (containing e.g. `fs`, and not
containing third-party names such as `lodash`). -/
def NODE_STDLIB_MODULES : List String :=
  ["assert", "buffer", "child_process", "cluster", "console", "constants",
   "crypto", "dgram", "dns", "domain", "events", "fs", "http", "http2",
   "https", "module", "net", "os", "path", "perf_hooks", "process",
   "punycode", "querystring", "readline", "repl", "stream", "string_decoder",
   "sys", "timers", "tls", "tty", "url", "util", "v8", "vm",
   "worker_threads", "zlib"]

/-- `isNodeStdLibraryModule`: a `node:`-prefixed name or a member of the
standard-library allow-list. -/
def isNodeStdLibraryModule (moduleName : String) : Bool :=
  isPrefixOfCL "node:".data moduleName.data || NODE_STDLIB_MODULES.contains moduleName

/-- Modelled from the spec: `learnMore` (`utils/link`, not in the source tree)
renders a documentation pointer for a URL; styling-free text here. -/
def learnMore (url : String) : String :=
  "Learn more: " ++ url

/-- The documentation page named by the module-resolution diagnostics. -/
def docsPageUrl : String :=
  "https://docs.expo.dev/workflow/using-libraries/#using-third-party-libraries"

/-- A Metro `SnippetError` as read by the reporter: optional fields model
absent values; `causeExpoImportStack` is `error.cause?._expoImportStack`. -/
structure SnippetError where
  message : Option String := none
  targetModuleName : Option String := none
  originModulePath : Option String := none
  causeExpoImportStack : Option String := none
deriving DecidableEq

/-- `formatUsingNodeStandardLibraryError`: `null` when the message, target
module name or origin module path is falsy; a standard-library diagnostic
(package vs. direct import) when the target is a Node standard-library
module; otherwise the plain `Unable to resolve` message. -/
def formatUsingNodeStandardLibraryError (projectRoot : String) (e : SnippetError) :
    Option String :=
  if jsTruthy e.message = false then none
  else if jsTruthy e.targetModuleName = false || jsTruthy e.originModulePath = false then none
  else
    let t := e.targetModuleName.getD ""
    let origin := e.originModulePath.getD ""
    let relativePath := posixRelative projectRoot origin
    if isNodeStdLibraryModule t then
      if strIncludes origin "node_modules" then
        some ("The package at \"" ++ relativePath
          ++ "\" attempted to import the Node standard library module \"" ++ t ++ "\".\n"
          ++ "It failed because the native React runtime does not include the Node standard library.\n"
          ++ learnMore docsPageUrl)
      else
        some ("You attempted to import the Node standard library module \"" ++ t
          ++ "\" from \"" ++ relativePath ++ "\".\n"
          ++ "It failed because the native React runtime does not include the Node standard library.\n"
          ++ learnMore docsPageUrl)
    else
      some ("Unable to resolve \"" ++ t ++ "\" from \"" ++ relativePath ++ "\"")

/-- `stripMetroInfo`: `null` unless the raw message contains the Metro
cache-clearing instructions marker; otherwise the lines after the marker. -/
def stripMetroInfo (errorMessage : String) : Option String :=
  if strIncludes errorMessage "4. Remove the cache" = false then none
  else
    let lines := splitOnChar '\n' errorMessage
    match lines.findIdx? (fun l => strIncludes l "4. Remove the cache") with
    | none => none
    | some i => some (joinSep "\n" (lines.drop (i + 1)))

/-- `maybeAppendCodeFrame`: appends the stripped code frame when one is found
(and truthy). -/
def maybeAppendCodeFrame (message rawMessage : String) : String :=
  match stripMetroInfo rawMessage with
  | some codeFrame => if codeFrame = "" then message else message ++ "\n" ++ codeFrame
  | none => message

/-- The observable outcome of `_logBundlingError`: either the reporter logs a
formatted message itself, or it delegates to the base reporter (with the
attached import stack possibly appended to the error message). -/
inductive BundlingErrorLogAction where
  | logMessage (msg : String)
  | delegated (finalErrorMessage : String)
deriving DecidableEq

/-- `MetroTerminalReporter._logBundlingError`: when the module-resolution
formatter produces a (truthy) message, log it (with the code frame and the
attached import stack appended); otherwise delegate to the base reporter. -/
def logBundlingError (projectRoot : String) (e : SnippetError) :
    BundlingErrorLogAction :=
  let moduleResolutionError := formatUsingNodeStandardLibraryError projectRoot e
  if jsTruthy moduleResolutionError then
    let m0 := maybeAppendCodeFrame (moduleResolutionError.getD "") (e.message.getD "")
    if jsTruthy e.causeExpoImportStack then
      BundlingErrorLogAction.logMessage (m0 ++ "\n\n" ++ e.causeExpoImportStack.getD "")
    else
      BundlingErrorLogAction.logMessage m0
  else
    if jsTruthy e.causeExpoImportStack then
      BundlingErrorLogAction.delegated
        (e.message.getD "" ++ "\n\n" ++ e.causeExpoImportStack.getD "")
    else
      BundlingErrorLogAction.delegated (e.message.getD "")

/-- C9: `shouldFilterBundleEvent` returns true exactly for events that carry a
`bundleDetails` field whose (non-null) value has `bundleType = "map"`, and
false for every other event. -/
theorem shouldFilterBundleEvent_map_iff (event : TerminalReportableEvent) :
    shouldFilterBundleEvent event = true ↔
      ∃ bd, event.bundleDetailsField = some (some bd) ∧ bd.bundleType = "map" := by
  constructor
  · intro h
    cases he : event.bundleDetailsField with
    | none => simp [shouldFilterBundleEvent, he] at h
    | some inner =>
      cases inner with
      | none => simp [shouldFilterBundleEvent, he] at h
      | some bd =>
        simp only [shouldFilterBundleEvent, he, beq_iff_eq] at h
        exact ⟨bd, rfl, h⟩
  · rintro ⟨bd, he, hm⟩
    simp [shouldFilterBundleEvent, he, hm]

/-- A terminal event for a source-map build. -/
def mapBundleEvent : TerminalReportableEvent :=
  { bundleDetailsField := some (some { entryFile := "/app/index.js", bundleType := "map" }) }

/-- C9 witness: a `map`-typed event is filtered; an event without the field is
not. -/
theorem shouldFilterBundleEvent_map_iff_witness :
    shouldFilterBundleEvent mapBundleEvent = true
    ∧ shouldFilterBundleEvent { bundleDetailsField := none } = false :=
  ⟨(shouldFilterBundleEvent_map_iff mapBundleEvent).mpr ⟨_, rfl, rfl⟩, rfl⟩

/-- C7: in a `done`/`failed` status message the elapsed-time segment is
`0.<d>ms` (a single tenth-of-a-millisecond digit) when the elapsed
milliseconds are at most 0.5 (`2 * elapsedNs ≤ 1000000`), the whole-millisecond
`<n>ms` otherwise, and absent when the buildID has no recorded start time. -/
theorem bundleStatusMessage_elapsed_time
    (root : String) (timers : List (String × Nat)) (nowNs : Nat)
    (p : BundleProgress) (phase : BuildPhase)
    (hph : phase = BuildPhase.done ∨ phase = BuildPhase.failed) :
    (∀ bid st, p.bundleDetails.buildID = some bid → timers.lookup bid = some st →
      (2 * (nowNs - st) ≤ 1000000 →
        getBundleStatusMessage root timers nowNs p phase =
          statusTag p.bundleDetails
            ++ (if phase = BuildPhase.done then "Bundled " else "Bundling failed ")
            ++ ("0." ++ toString ((2 * (nowNs - st) + 100000) / 200000) ++ "ms")
            ++ " " ++ localBundlePath root p.bundleDetails
            ++ " (" ++ toString p.totalFileCount ++ " module"
            ++ (if p.totalFileCount = 1 then "" else "s") ++ ")"
        ∧ (2 * (nowNs - st) + 100000) / 200000 < 10)
      ∧ (¬ 2 * (nowNs - st) ≤ 1000000 →
        getBundleStatusMessage root timers nowNs p phase =
          statusTag p.bundleDetails
            ++ (if phase = BuildPhase.done then "Bundled " else "Bundling failed ")
            ++ (toString ((2 * (nowNs - st) + 1000000) / 2000000) ++ "ms")
            ++ " " ++ localBundlePath root p.bundleDetails
            ++ " (" ++ toString p.totalFileCount ++ " module"
            ++ (if p.totalFileCount = 1 then "" else "s") ++ ")"))
    ∧ (p.bundleDetails.buildID.bind (fun b => timers.lookup b) = none →
        getBundleStatusMessage root timers nowNs p phase =
          statusTag p.bundleDetails
            ++ (if phase = BuildPhase.done then "Bundled " else "Bundling failed ")
            ++ " " ++ localBundlePath root p.bundleDetails
            ++ " (" ++ toString p.totalFileCount ++ " module"
            ++ (if p.totalFileCount = 1 then "" else "s") ++ ")") := by
  have hnp : ¬ phase = BuildPhase.in_progress := by
    rcases hph with rfl | rfl <;> simp
  constructor
  · intro bid st hbid hst
    constructor
    · intro hle
      refine ⟨?_, by omega⟩
      simp [getBundleStatusMessage, hnp, hbid, hst, hle]
    · intro hgt
      simp [getBundleStatusMessage, hnp, hbid, hst, hgt]
  · intro hnone
    simp [getBundleStatusMessage, hnp, hnone, str_append_empty]

/-- Bundle details of a finished iOS build used as a concrete example. -/
def demoBundleDetails : BundleDetails :=
  { entryFile := "app/index.js", platform := some "ios", buildID := some "a" }

/-- Progress of a finished build with 10 modules. -/
def demoDoneProgress : BundleProgress :=
  { bundleDetails := demoBundleDetails, transformedFileCount := 10,
    totalFileCount := 10, ratio := 1 }

/-- C7 witness: elapsed 0.3ms renders `0.3ms`, elapsed 150ms renders `150ms`,
and a buildID without a recorded start time renders no time segment. -/
theorem bundleStatusMessage_elapsed_time_witness :
    getBundleStatusMessage "/proj" [("a", 0)] 300000 demoDoneProgress BuildPhase.done =
      "iOS Bundled 0.3ms app/index.js (10 modules)"
    ∧ getBundleStatusMessage "/proj" [("a", 0)] 150000000 demoDoneProgress BuildPhase.done =
      "iOS Bundled 150ms app/index.js (10 modules)"
    ∧ getBundleStatusMessage "/proj" [] 300000 demoDoneProgress BuildPhase.done =
      "iOS Bundled  app/index.js (10 modules)" := by
  have h1 := ((bundleStatusMessage_elapsed_time "/proj" [("a", 0)] 300000 demoDoneProgress
    BuildPhase.done (Or.inl rfl)).1 "a" 0 rfl rfl).1 (by decide)
  have h2 := ((bundleStatusMessage_elapsed_time "/proj" [("a", 0)] 150000000 demoDoneProgress
    BuildPhase.done (Or.inl rfl)).1 "a" 0 rfl rfl).2 (by decide)
  have h3 := (bundleStatusMessage_elapsed_time "/proj" [] 300000 demoDoneProgress
    BuildPhase.done (Or.inl rfl)).2 rfl
  exact ⟨h1.1.trans (by rfl), h2.trans (by rfl), h3.trans (by rfl)⟩

/-- The integer computation of the bar fill agrees with the mathematical
`⌊ratio * 16⌋` for non-negative ratios. -/
theorem floorRatioTimes16_eq (q : ℚ) (h0 : 0 ≤ q) :
    (floorRatioTimes16 q : ℤ) = ⌊q * 16⌋ := by
  have hfl : ⌊q * (16:ℚ)⌋ = (q.num * 16) / (q.den : ℤ) := by
    conv_lhs => rw [← Rat.num_div_den q]
    rw [div_mul_eq_mul_div]
    rw [show ((q.num : ℚ) * 16) = (((q.num * 16 : ℤ) : ℚ)) by push_cast; ring]
    exact Rat.floor_intCast_div_natCast (q.num * 16) q.den
  unfold floorRatioTimes16
  rw [Int.toNat_of_nonneg (Int.ediv_nonneg
    (mul_nonneg (Rat.num_nonneg.mpr h0) (by norm_num)) (Int.ofNat_nonneg _))]
  exact hfl.symm

/-- C8: an in-progress status message is the platform/environment tag, the
dirname of the display path plus the separator, the basename, then the bar:
exactly 16 block glyphs of which `⌊ratio * 16⌋` are dark, the percentage
`100 * ratio` to one decimal padded to width 4, and the transformed count
padded to the digit width of the total count. -/
theorem bundleStatusMessage_progress_bar
    (root : String) (timers : List (String × Nat)) (nowNs : Nat) (p : BundleProgress)
    (h0 : 0 ≤ p.ratio) (h1 : p.ratio ≤ 1) :
    getBundleStatusMessage root timers nowNs p BuildPhase.in_progress =
      statusTag p.bundleDetails
        ++ (posixDirname (localBundlePath root p.bundleDetails) ++ "/")
        ++ posixBasename (localBundlePath root p.bundleDetails)
        ++ " "
        ++ String.mk (List.replicate (floorRatioTimes16 p.ratio) darkBlockChar)
        ++ String.mk (List.replicate (16 - floorRatioTimes16 p.ratio) lightBlockChar)
        ++ " " ++ padStart 4 (toFixed1OfHundredTimes p.ratio) ++ "% "
        ++ "(" ++ padStart (toString p.totalFileCount).length
                    (toString p.transformedFileCount)
        ++ "/" ++ toString p.totalFileCount ++ ")"
    ∧ (floorRatioTimes16 p.ratio : ℤ) = ⌊p.ratio * 16⌋
    ∧ floorRatioTimes16 p.ratio ≤ 16
    ∧ (List.replicate (floorRatioTimes16 p.ratio) darkBlockChar
        ++ List.replicate (16 - floorRatioTimes16 p.ratio) lightBlockChar).length = 16 := by
  have hbr := floorRatioTimes16_eq p.ratio h0
  have hle : floorRatioTimes16 p.ratio ≤ 16 := by
    have hm : p.ratio * 16 ≤ 16 := by nlinarith
    have h16 : ⌊p.ratio * 16⌋ ≤ 16 := by
      calc ⌊p.ratio * 16⌋ ≤ ⌊(16:ℚ)⌋ := Int.floor_le_floor hm
        _ = 16 := by norm_num
    have : (floorRatioTimes16 p.ratio : ℤ) ≤ 16 := hbr ▸ h16
    exact_mod_cast this
  refine ⟨by simp [getBundleStatusMessage], hbr, hle, ?_⟩
  simp only [List.length_append, List.length_replicate]
  omega

/-- Progress of a half-done build: 4 of 8 modules, ratio one half. -/
def demoHalfProgress : BundleProgress :=
  { bundleDetails := demoBundleDetails, transformedFileCount := 4,
    totalFileCount := 8, ratio := mkRat 1 2 }

/-- C8 witness: at ratio one half the bar shows 8 dark and 8 light glyphs,
`50.0%`, and `(4/8)`. -/
theorem bundleStatusMessage_progress_bar_witness :
    (0:ℚ) ≤ demoHalfProgress.ratio ∧ demoHalfProgress.ratio ≤ 1
    ∧ getBundleStatusMessage "/proj" [] 0 demoHalfProgress BuildPhase.in_progress =
        "iOS app/index.js ▓▓▓▓▓▓▓▓░░░░░░░░ 50.0% (4/8)" := by
  have hr : demoHalfProgress.ratio = 1 / 2 := by
    show (mkRat 1 2 : ℚ) = 1 / 2
    rw [Rat.mkRat_eq_div]
    norm_num
  have h0 : (0:ℚ) ≤ demoHalfProgress.ratio := by rw [hr]; norm_num
  have h1 : demoHalfProgress.ratio ≤ 1 := by rw [hr]; norm_num
  have hw := bundleStatusMessage_progress_bar "/proj" [] 0 demoHalfProgress h0 h1
  exact ⟨h0, h1, hw.1.trans (by rfl)⟩

/-- C10: the module-resolution formatter returns `null` exactly when the
error's message, target module name or origin module path is missing
(JS-falsy: absent or empty); when all are present and the target is not a Node
standard-library module it returns the `Unable to resolve` message rather than
`null`, so `_logBundlingError` logs it itself instead of delegating to the
base reporter. -/
theorem formatUsingNodeStandardLibraryError_null_iff
    (root : String) (e : SnippetError) :
    (formatUsingNodeStandardLibraryError root e = none ↔
      (jsTruthy e.message = false ∨ jsTruthy e.targetModuleName = false ∨
        jsTruthy e.originModulePath = false))
    ∧ (∀ t origin, e.targetModuleName = some t → e.originModulePath = some origin →
        jsTruthy e.message = true → t ≠ "" → origin ≠ "" →
        isNodeStdLibraryModule t = false →
        formatUsingNodeStandardLibraryError root e =
          some ("Unable to resolve \"" ++ t ++ "\" from \""
            ++ posixRelative root origin ++ "\"")
        ∧ ∃ m, logBundlingError root e = BundlingErrorLogAction.logMessage m) := by
  constructor
  · cases hm : jsTruthy e.message with
    | false => simp [formatUsingNodeStandardLibraryError, hm]
    | true =>
      cases ht : jsTruthy e.targetModuleName with
      | false => simp [formatUsingNodeStandardLibraryError, hm, ht]
      | true =>
        cases ho : jsTruthy e.originModulePath with
        | false => simp [formatUsingNodeStandardLibraryError, hm, ht, ho]
        | true =>
          simp [formatUsingNodeStandardLibraryError, hm, ht, ho]
          split
          · split <;> simp
          · simp
  · intro t origin ht ho hm htne hone hstd
    have htt : jsTruthy (some t) = true := by
      simp [jsTruthy, htne]
    have hoo : jsTruthy (some origin) = true := by
      simp [jsTruthy, hone]
    have hfmt : formatUsingNodeStandardLibraryError root e =
        some ("Unable to resolve \"" ++ t ++ "\" from \""
          ++ posixRelative root origin ++ "\"") := by
      simp [formatUsingNodeStandardLibraryError, hm, ht, ho, htt, hoo, hstd]
    refine ⟨hfmt, ?_⟩
    have hne : ("Unable to resolve \"" ++ t ++ "\" from \""
        ++ posixRelative root origin ++ "\"") ≠ "" := by
      apply str_append_ne_empty_left
      apply str_append_ne_empty_left
      apply str_append_ne_empty_left
      apply str_append_ne_empty_left
      decide
    have htr : jsTruthy (formatUsingNodeStandardLibraryError root e) = true := by
      rw [hfmt]
      simp [jsTruthy, hne]
    cases hc : jsTruthy e.causeExpoImportStack with
    | true =>
      exact ⟨maybeAppendCodeFrame ((formatUsingNodeStandardLibraryError root e).getD "")
          (e.message.getD "") ++ "\n\n" ++ e.causeExpoImportStack.getD "",
        by simp [logBundlingError, htr, hc]⟩
    | false =>
      exact ⟨maybeAppendCodeFrame ((formatUsingNodeStandardLibraryError root e).getD "")
          (e.message.getD ""),
        by simp [logBundlingError, htr, hc]⟩

/-- An unresolved third-party module error. -/
def unresolvedLodashError : SnippetError :=
  { message := some "Unable to resolve module lodash",
    targetModuleName := some "lodash",
    originModulePath := some "/proj/src/App.js" }

/-- C10 witness: a present, non-standard-library module yields the
`Unable to resolve` message and is logged (not delegated); an empty error
yields `null`. -/
theorem formatUsingNodeStandardLibraryError_null_iff_witness :
    formatUsingNodeStandardLibraryError "/proj" unresolvedLodashError =
      some "Unable to resolve \"lodash\" from \"src/App.js\""
    ∧ logBundlingError "/proj" unresolvedLodashError =
        BundlingErrorLogAction.logMessage "Unable to resolve \"lodash\" from \"src/App.js\""
    ∧ formatUsingNodeStandardLibraryError "/proj" {} = none := by
  have h := (formatUsingNodeStandardLibraryError_null_iff "/proj" unresolvedLodashError).2
    "lodash" "/proj/src/App.js" rfl rfl (by decide) (by decide) (by decide) (by decide)
  exact ⟨h.1.trans (by rfl), by rfl,
    ((formatUsingNodeStandardLibraryError_null_iff "/proj" {}).1).mpr (Or.inl rfl)⟩
